import Mathlib

/-!
Verification of the node-provisioning workflow, status parser and board
catalog of clusterctrl_gui.py, via a shallow embedding.  External
processes (the clusterctrl gateway, the which lookup, the ssh
reachability probe and the sshpass/ssh-copy-id helper) are modelled by
an explicit environment record; the workflow is a pure function from a
connection spec and an environment to a typed result together with the
ordered trace of external calls it performs.
-/

namespace ClusterCtrlGui

/-- Character class of Python str.strip: space, tab, newline, carriage
return, vertical tab and form feed. -/
def isPySpace (c : Char) : Bool :=
  c = ' ' || c = '\t' || c = '\n' || c = '\r' || c = Char.ofNat 11 || c = Char.ofNat 12

/-- Trim the Python-whitespace characters from both ends of a character list. -/
def trimChars (l : List Char) : List Char :=
  ((l.dropWhile isPySpace).reverse.dropWhile isPySpace).reverse

/-- Embedding of Python str.strip() (with no argument). -/
def pyStrip (s : String) : String := String.mk (trimChars s.data)

/-- Embedding of Python str.upper() restricted to the ASCII range used by the GUI. -/
def pyUpper (s : String) : String := String.mk (s.data.map Char.toUpper)

/-- Whether the pattern (first argument) occurs as a contiguous sublist of the
second argument; used to embed the Python substring test a in b. -/
def subOccurs : List Char → List Char → Bool
  | pat, [] => pat.isEmpty
  | pat, c :: rest => pat.isPrefixOf (c :: rest) || subOccurs pat rest

/-- Embedding of the Python substring test: pat in s. -/
def containsSubstr (s pat : String) : Bool := subOccurs pat.data s.data

/-- The literal marker token expected from the reachability probe (echo up). -/
def upMarker : String := "up"

/-- The literal marker used to check that a user-facing message mentions the
node being left powered ON. -/
def onMarker : String := "ON"

/-- Split a character list on newline characters (embedding of the use of
str.splitlines in the status parser; the per-line strip removes any
carriage returns, so splitting on newline alone is equivalent there). -/
def splitOnNl : List Char → List (List Char)
  | [] => [[]]
  | c :: rest =>
    if c = '\n' then [] :: splitOnNl rest
    else
      match splitOnNl rest with
      | [] => [[c]]
      | l :: ls => (c :: l) :: ls

/-- Split a line at the first colon, if any: embedding of the combination of
the Python test ":" in line with line.split(":", 1). -/
def splitFirstOnColon : List Char → Option (List Char × List Char)
  | [] => none
  | c :: rest =>
    if c = ':' then some ([], rest)
    else
      match splitFirstOnColon rest with
      | none => none
      | some q => some (c :: q.1, q.2)

/-- Python dict assignment d[k] = v on an association list with unique keys:
the value of the first occurrence of the key is replaced in place, and a
missing key is appended at the end. -/
def dictInsert : List (String × String) → String → String → List (String × String)
  | [], k, v => [(k, v)]
  | p :: rest, k, v => if p.1 == k then (k, v) :: rest else p :: dictInsert rest k v

/-- Lookup of the first binding of a key in an association list. -/
def lookupFirst : List (String × String) → String → Option String
  | [], _ => none
  | p :: rest, k => if p.1 == k then some p.2 else lookupFirst rest k

/-- Behaviour of the external world during one provisioning run.  A none
value for whichSshpass or sshCopyId means the corresponding executable
cannot be spawned (Python raises FileNotFoundError there); clusterctrl
returning none is the FileNotFoundError caught inside
run_clusterctrl_command; probe is indexed by the attempt number and a
none value is an exception raised during the probe (caught by the loop).
Each some value carries the exit code and the captured output streams. -/
structure Env where
  whichSshpass : Option Int
  clusterctrl : List String → Option (Int × String × String)
  probe : Nat → Option (Int × String)
  sshCopyId : Option (Int × String × String)

/-- Embedding of run_clusterctrl_command: runs the gateway, stripping both
captured streams, and turns an unlocatable executable into the sentinel
triple with exit code -1. -/
def run_clusterctrl_command (env : Env) (args_list : List String) : Int × String × String :=
  match env.clusterctrl args_list with
  | some r => (r.1, pyStrip r.2.1, pyStrip r.2.2)
  | none => (-1, "", "clusterctrl not found; ensure it\x27s installed and in PATH.")

/-- Embedding of the line-parsing loop of parse_clusterctrl_status: strip
each line, skip it when it has no colon, otherwise split at the first
colon, strip key and value and insert into the dictionary. -/
def parseStatusLines (out : String) : List (String × String) :=
  (splitOnNl out.data).foldl
    (fun st rawLine =>
      let line := trimChars rawLine
      match splitFirstOnColon line with
      | none => st
      | some q => dictInsert st (String.mk (trimChars q.1)) (String.mk (trimChars q.2)))
    []

/-- Embedding of parse_clusterctrl_status: call the gateway with the status
command and either report its failure or parse its stdout. -/
def parse_clusterctrl_status (env : Env) : Option (List (String × String)) × Option String :=
  let r := run_clusterctrl_command env (["status"])
  if r.1 ≠ 0 then (none, some ("Error running clusterctrl status: " ++ r.2.2))
  else (some (parseStatusLines r.2.1), none)

/-- Board variant descriptor, embedding the class attributes of
BoardDefinition and its five subclasses. -/
structure BoardDefinition where
  name : String
  supports_nodes : Nat
  supports_hub_led : Bool
  supports_alert : Bool
  supports_wp : Bool
  deriving DecidableEq

def ClusterHATv2 : BoardDefinition :=
  { name := "ClusterHAT v2.x", supports_nodes := 4, supports_hub_led := true,
    supports_alert := true, supports_wp := true }

def ClusterHATv1 : BoardDefinition :=
  { name := "ClusterHAT v1.x", supports_nodes := 4, supports_hub_led := false,
    supports_alert := true, supports_wp := false }

def ClusterCTRLSingle : BoardDefinition :=
  { name := "ClusterCTRL Single", supports_nodes := 1, supports_hub_led := false,
    supports_alert := false, supports_wp := false }

def ClusterCTRLTriple : BoardDefinition :=
  { name := "ClusterCTRL Triple", supports_nodes := 3, supports_hub_led := true,
    supports_alert := true, supports_wp := false }

def ClusterCTRLA6 : BoardDefinition :=
  { name := "ClusterCTRL A+6", supports_nodes := 6, supports_hub_led := true,
    supports_alert := true, supports_wp := false }

def ALL_BOARDS : List BoardDefinition :=
  [ClusterHATv2, ClusterHATv1, ClusterCTRLSingle, ClusterCTRLTriple, ClusterCTRLA6]

/-- The connection fields read from the settings UI for one node: the raw
text of the user@host, keyfile and password fields. -/
structure NodeConnectionSpec where
  node_label : String
  user_host_text : String
  keyfile_text : String
  password_text : String

/-- Typed outcome of one provisioning run, each constructor carrying the
exact user-facing message the code builds at the corresponding return
point. -/
inductive Outcome where
  | missingInfo (msg : String)
  | missingPrereq (msg : String)
  | powerOnFailed (msg : String)
  | timeout (elapsedSeconds : Nat) (msg : String)
  | keyInstallFailed (msg : String)
  | powerOffFailed (msg : String)
  | succeeded (msg : String)
  deriving DecidableEq

/-- One external call performed by the workflow, in order. -/
inductive Event where
  | whichCall
  | cluster (args : List String)
  | probeAttempt (cmd : String)
  | sshCopy (cmd : String)
  deriving DecidableEq

/-- Whether an Except value is a normal (non-exception) return. -/
def exceptIsOk : Except String Outcome → Bool
  | Except.ok _ => true
  | Except.error _ => false

/-- The success test of one reachability probe attempt, embedding
completed.returncode == 0 and "up" in completed.stdout; an exception
during the attempt (none) is caught and counts as failure. -/
def probeOk (r : Option (Int × String)) : Bool :=
  match r with
  | some p => p.1 == 0 && containsSubstr p.2 upMarker
  | none => false

/-- Iterative core of the WAIT_REACHABLE while loop, with the literal wait
budget 120 and poll interval 5 of the source.  The first argument is
spare iteration fuel; 24 units are enough for every run starting from
elapsed 0, and the fuel-invariance lemma below certifies that the
function satisfies exactly the defining equations of the while loop.
Returns (elapsed, attempts, broke). -/
def waitLoopAux (probe : Nat → Option (Int × String)) : Nat → Nat → Nat → Nat × Nat × Bool
  | 0, elapsed, attempts => (elapsed, attempts, false)
  | fuel + 1, elapsed, attempts =>
    if elapsed < 120 then
      if probeOk (probe attempts) then (elapsed, attempts + 1, true)
      else waitLoopAux probe fuel (elapsed + 5) (attempts + 1)
    else (elapsed, attempts, false)

/-- The WAIT_REACHABLE loop of _distribute_ssh_key_for_node. -/
def waitReachable (probe : Nat → Option (Int × String)) (elapsed attempts : Nat) : Nat × Nat × Bool :=
  waitLoopAux probe 24 elapsed attempts

/-- The ssh probe command line built inside the wait loop (interval 5 is
interpolated as the connect timeout). -/
def probeCmdOf (spec : NodeConnectionSpec) : String :=
  "ssh -o BatchMode=yes -o ConnectTimeout=5 -i " ++ pyStrip spec.keyfile_text ++ " " ++
    pyStrip spec.user_host_text ++ " echo up"

/-- The sshpass/ssh-copy-id command line built for the install step; note it
interpolates the plaintext password. -/
def copyCmdOf (spec : NodeConnectionSpec) : String :=
  "sshpass -p " ++ spec.password_text ++ " ssh-copy-id -o StrictHostKeyChecking=no -i " ++
    pyStrip spec.keyfile_text ++ " " ++ pyStrip spec.user_host_text

/-- Result of one run of the workflow: the typed outcome (or a propagated
exception), the ordered trace of external calls, and whether the
password field was cleared at the end. -/
structure DistRun where
  result : Except String Outcome
  trace : List Event
  pwCleared : Bool

def fileNotFound : String := "FileNotFoundError"

def sshpassMissingMsg : String :=
  "sshpass is required to distribute SSH keys. Please install it (\x60sudo apt install sshpass\x60) first."

/-- Embedding of _distribute_ssh_key_for_node.  Stage order as in the
source: field validation, which sshpass, clusterctrl on, the wait loop,
sshpass ssh-copy-id, clusterctrl off; pw_edit.clear() runs only on the
two paths that fall through the power-off stage.  The unguarded
subprocess.run calls for which and for the copy helper propagate
FileNotFoundError when the executable cannot be spawned (the Except
error case); all clusterctrl calls and the probe are exception-safe. -/
def distributeKey (spec : NodeConnectionSpec) (env : Env) : DistRun :=
  let user_host := pyStrip spec.user_host_text
  let keyfile := pyStrip spec.keyfile_text
  let nodeU := pyUpper spec.node_label
  if user_host = "" ∨ keyfile = "" then
    { result := Except.ok (Outcome.missingInfo ("Please specify User@Host and Keyfile for " ++ nodeU ++ ".")),
      trace := [], pwCleared := false }
  else
    match env.whichSshpass with
    | none => { result := Except.error fileNotFound, trace := [Event.whichCall], pwCleared := false }
    | some rcWhich =>
      if rcWhich ≠ 0 then
        { result := Except.ok (Outcome.missingPrereq sshpassMissingMsg),
          trace := [Event.whichCall], pwCleared := false }
      else
        let rOn := run_clusterctrl_command env (["on", spec.node_label])
        if rOn.1 ≠ 0 then
          { result := Except.ok (Outcome.powerOnFailed ("Failed to power ON " ++ nodeU ++ ": " ++ rOn.2.2)),
            trace := [Event.whichCall, Event.cluster (["on", spec.node_label])], pwCleared := false }
        else
          let w := waitReachable env.probe 0 0
          let traceW := [Event.whichCall, Event.cluster (["on", spec.node_label])] ++
            List.replicate w.2.1 (Event.probeAttempt (probeCmdOf spec))
          if w.1 ≥ 120 then
            { result := Except.ok (Outcome.timeout w.1 (user_host ++ " did not respond within 120 seconds.\n" ++
                nodeU ++ " remains powered ON for manual setup.")),
              trace := traceW, pwCleared := false }
          else
            match env.sshCopyId with
            | none =>
              { result := Except.error fileNotFound,
                trace := traceW ++ [Event.sshCopy (copyCmdOf spec)], pwCleared := false }
            | some rCopy =>
              if rCopy.1 ≠ 0 then
                { result := Except.ok (Outcome.keyInstallFailed ("Failed to copy SSH key to " ++ user_host ++
                    ":\n" ++ pyStrip rCopy.2.2)),
                  trace := traceW ++ [Event.sshCopy (copyCmdOf spec)], pwCleared := false }
              else
                let rOff := run_clusterctrl_command env (["off", spec.node_label])
                if rOff.1 ≠ 0 then
                  { result := Except.ok (Outcome.powerOffFailed (nodeU ++
                      " was ON and key copied, but failed to power OFF: " ++ rOff.2.2)),
                    trace := traceW ++ [Event.sshCopy (copyCmdOf spec), Event.cluster (["off", spec.node_label])],
                    pwCleared := true }
                else
                  { result := Except.ok (Outcome.succeeded ("SSH key copied to " ++ user_host ++ " and " ++
                      nodeU ++ " powered OFF.")),
                    trace := traceW ++ [Event.sshCopy (copyCmdOf spec), Event.cluster (["off", spec.node_label])],
                    pwCleared := true }

/-- The three per-node text fields of the settings tab. -/
structure SshFields where
  uh_text : String
  kf_text : String
  pw_text : String

/-- Embedding of the per-node body of _settings_save_clicked: only the
stripped user@host and keyfile texts are stored. -/
def savedSshEntry (f : SshFields) : String × String := (pyStrip f.uh_text, pyStrip f.kf_text)

/-- Connection spec for node p1 with non-empty user@host and keyfile fields,
used by the concrete runs below. -/
def specP1 : NodeConnectionSpec :=
  { node_label := "p1", user_host_text := "pi@p1.local",
    keyfile_text := "/home/pi/.ssh/id_rsa", password_text := "secret" }

/-- Connection spec whose user@host field is whitespace only. -/
def specBlank : NodeConnectionSpec :=
  { node_label := "p2", user_host_text := "   ", keyfile_text := "/home/pi/.ssh/id_rsa",
    password_text := "" }

/-- Environment where every stage succeeds except the final power-off, and
the probe succeeds on the third attempt. -/
def envC1 : Env :=
  { whichSshpass := some 0,
    clusterctrl := fun args => if args = ["off", "p1"] then some (1, "", "off boom") else some (0, "", ""),
    probe := fun k => if k < 2 then some (1, "") else some (0, "up"),
    sshCopyId := some (0, "", "") }

/-- Environment where every stage succeeds and the probe succeeds on the
third attempt. -/
def envC1ok : Env :=
  { whichSshpass := some 0,
    clusterctrl := fun _ => some (0, "", ""),
    probe := fun k => if k < 2 then some (1, "") else some (0, "up"),
    sshCopyId := some (0, "", "") }

/-- Environment whose reachability probe fails on every attempt. -/
def envC2 : Env :=
  { whichSshpass := some 0,
    clusterctrl := fun _ => some (0, "", ""),
    probe := fun _ => some (1, ""),
    sshCopyId := some (0, "", "") }

/-- Environment where the which lookup for sshpass exits nonzero. -/
def envC3 : Env :=
  { whichSshpass := some 1,
    clusterctrl := fun _ => some (0, "", ""),
    probe := fun _ => some (1, ""),
    sshCopyId := some (0, "", "") }

/-- Probe behaviour returning a nonzero exit with the marker token in stdout. -/
def probeC4 : Nat → Option (Int × String) := fun _ => some (1, "up")

/-- Environment where the key-install helper fails. -/
def envC5 : Env :=
  { whichSshpass := some 0,
    clusterctrl := fun _ => some (0, "", ""),
    probe := fun _ => some (0, "up"),
    sshCopyId := some (1, "", "Permission denied") }

/-- Environment where only the final power-off fails, probe succeeding at once. -/
def envC5w : Env :=
  { whichSshpass := some 0,
    clusterctrl := fun args => if args = ["off", "p1"] then some (1, "", "off boom") else some (0, "", ""),
    probe := fun _ => some (0, "up"),
    sshCopyId := some (0, "", "") }

/-- Environment where no external executable can be spawned at all. -/
def envC6 : Env :=
  { whichSshpass := none, clusterctrl := fun _ => none, probe := fun _ => none, sshCopyId := none }

/-- Environment where which and the copy helper can be spawned but everything
else is missing or failing. -/
def envC6w : Env :=
  { whichSshpass := some 1, clusterctrl := fun _ => none, probe := fun _ => none,
    sshCopyId := some (0, "", "") }

/-- Environment where every stage succeeds and the probe succeeds immediately. -/
def envC7 : Env :=
  { whichSshpass := some 0,
    clusterctrl := fun _ => some (0, "", ""),
    probe := fun _ => some (0, "up"),
    sshCopyId := some (0, "", "") }

/-- Environment whose status command succeeds with the sample stdout of the
specification. -/
def envC8 : Env :=
  { whichSshpass := some 0,
    clusterctrl := fun args => if args = ["status"] then some (0, "p1: 1\nhub:0\nnot-a-line\nfan : 1", "") else some (0, "", ""),
    probe := fun _ => none,
    sshCopyId := none }

theorem isPrefixOf_append (pat l₁ l₂ : List Char) (h : pat.isPrefixOf l₁ = true) :
    pat.isPrefixOf (l₁ ++ l₂) = true := by
  induction pat generalizing l₁ with
  | nil => simp [List.isPrefixOf]
  | cons a as ih =>
    cases l₁ with
    | nil => simp [List.isPrefixOf] at h
    | cons b bs =>
      simp only [List.isPrefixOf, Bool.and_eq_true] at h ⊢
      exact ⟨h.1, ih bs h.2⟩

theorem subOccurs_nil (l : List Char) : subOccurs [] l = true := by
  cases l with
  | nil => rfl
  | cons c rest => simp [subOccurs, List.isPrefixOf]

theorem subOccurs_append_right (pat l₁ l₂ : List Char) (h : subOccurs pat l₂ = true) :
    subOccurs pat (l₁ ++ l₂) = true := by
  induction l₁ with
  | nil => simpa using h
  | cons c rest ih =>
    simp only [List.cons_append, subOccurs, Bool.or_eq_true]
    exact Or.inr ih

theorem subOccurs_append_left (pat l₁ l₂ : List Char) (h : subOccurs pat l₁ = true) :
    subOccurs pat (l₁ ++ l₂) = true := by
  induction l₁ with
  | nil =>
    simp only [subOccurs, List.isEmpty_iff] at h
    subst h
    exact subOccurs_nil l₂
  | cons c rest ih =>
    simp only [subOccurs, Bool.or_eq_true, List.cons_append] at h ⊢
    rcases h with h | h
    · exact Or.inl (isPrefixOf_append pat (c :: rest) l₂ h)
    · exact Or.inr (ih h)

theorem str_data_append (a b : String) : (a ++ b).data = a.data ++ b.data := by
  cases a
  cases b
  rfl

theorem containsSubstr_append_right (a b pat : String) (h : containsSubstr b pat = true) :
    containsSubstr (a ++ b) pat = true := by
  unfold containsSubstr at h ⊢
  rw [str_data_append]
  exact subOccurs_append_right pat.data a.data b.data h

theorem containsSubstr_append_left (a b pat : String) (h : containsSubstr a pat = true) :
    containsSubstr (a ++ b) pat = true := by
  unfold containsSubstr at h ⊢
  rw [str_data_append]
  exact subOccurs_append_left pat.data a.data b.data h

/-- The fuel argument of waitLoopAux does not matter as long as it covers the
remaining iterations of the while loop; together with the step and exit
lemmas below this certifies that waitReachable is exactly the function
computed by the while loop of the source. -/
theorem waitLoopAux_fuel (probe : Nat → Option (Int × String)) :
    ∀ f₁ f₂ e a, 120 ≤ e + 5 * f₁ → 120 ≤ e + 5 * f₂ →
      waitLoopAux probe f₁ e a = waitLoopAux probe f₂ e a := by
  intro f₁
  induction f₁ with
  | zero =>
    intro f₂ e a h1 h2
    have he : ¬ e < 120 := by omega
    cases f₂ with
    | zero => rfl
    | succ g => simp [waitLoopAux, he]
  | succ g ih =>
    intro f₂ e a h1 h2
    by_cases he : e < 120
    · cases f₂ with
      | zero => omega
      | succ g₂ =>
        simp only [waitLoopAux, he, if_true]
        by_cases hp : probeOk (probe a) = true
        · simp [hp]
        · simp only [Bool.not_eq_true] at hp
          simp only [hp, Bool.false_eq_true, if_false]
          exact ih g₂ (e + 5) (a + 1) (by omega) (by omega)
    · cases f₂ with
      | zero => simp [waitLoopAux, he]
      | succ g₂ => simp [waitLoopAux, he]

/-- Loop exit when the wait budget is already exhausted. -/
theorem waitReachable_exit_budget (probe : Nat → Option (Int × String)) (e a : Nat)
    (he : ¬ e < 120) : waitReachable probe e a = (e, a, false) := by
  simp [waitReachable, waitLoopAux, he]

/-- Loop exit when the current probe attempt succeeds. -/
theorem waitReachable_exit_hit (probe : Nat → Option (Int × String)) (e a : Nat)
    (he : e < 120) (hp : probeOk (probe a) = true) :
    waitReachable probe e a = (e, a + 1, true) := by
  simp [waitReachable, waitLoopAux, he, hp]

/-- Loop step: a failed probe attempt inside the budget sleeps for the poll
interval and retries. -/
theorem waitReachable_step (probe : Nat → Option (Int × String)) (e a : Nat)
    (he : e < 120) (hp : probeOk (probe a) = false) :
    waitReachable probe e a = waitReachable probe (e + 5) (a + 1) := by
  unfold waitReachable
  conv_lhs => rw [waitLoopAux]
  simp only [he, if_true, hp, Bool.false_eq_true, if_false]
  exact waitLoopAux_fuel probe 23 24 (e + 5) (a + 1) (by omega) (by omega)

/-- With a probe that fails on every attempt, the loop runs down the whole
budget, one attempt per poll interval. -/
theorem waitReachable_allFail (probe : Nat → Option (Int × String))
    (h : ∀ k, probeOk (probe k) = false) :
    ∀ n e a, e + 5 * n = 120 → waitReachable probe e a = (120, a + n, false) := by
  intro n
  induction n with
  | zero =>
    intro e a he
    have : e = 120 := by omega
    subst this
    simpa using waitReachable_exit_budget probe 120 a (by omega)
  | succ m ih =>
    intro e a he
    rw [waitReachable_step probe e a (by omega) (h a)]
    rw [ih (e + 5) (a + 1) (by omega)]
    have hm : a + 1 + m = a + (m + 1) := by omega
    rw [hm]

/-- Inserting a binding makes it the value found for that key: later
duplicate keys overwrite earlier ones. -/
theorem lookupFirst_dictInsert (st : List (String × String)) (k v : String) :
    lookupFirst (dictInsert st k v) k = some v := by
  induction st with
  | nil => simp [dictInsert, lookupFirst]
  | cons p rest ih =>
    by_cases hp : p.1 == k
    · simp [dictInsert, hp, lookupFirst]
    · simp only [dictInsert, hp, Bool.false_eq_true, if_false, lookupFirst]
      simp [hp, ih]

/-- Claim C1, counterexample: a run in which every hypothesis of the claim
holds (user@host and keyfile non-empty, copy helper present, power-on
exits zero, probe fails twice and succeeds on the third attempt, key
install exits zero) but the power-off command exits nonzero; the workflow
then returns PowerOffFailed, not Succeeded, so the claim as stated is
false. -/
theorem claim1_power_off_gap_cex :
    probeOk (envC1.probe 0) = false ∧ probeOk (envC1.probe 1) = false ∧
    probeOk (envC1.probe 2) = true ∧ envC1.whichSshpass = some 0 ∧
    envC1.clusterctrl (["on", "p1"]) = some (0, "", "") ∧ envC1.sshCopyId = some (0, "", "") ∧
    (distributeKey specP1 envC1).result = Except.ok (Outcome.powerOffFailed
      ("P1 was ON and key copied, but failed to power OFF: off boom")) :=
  ⟨by decide, by decide, by decide, rfl, by decide, rfl, rfl⟩

/-- Claim C1 (amended): for every connection spec with non-empty user@host
and key-file and the copy helper present, if the power-on command exits
zero, the probe fails on the first two attempts and succeeds on the
third, the key-install helper exits zero, and additionally the power-off
command exits zero, then distributeKey returns Succeeded and performs
exactly one power-on call, three probe attempts, one install call and one
power-off call, in that order. -/
theorem claim1_success_sequence (spec : NodeConnectionSpec) (env : Env)
    (onOut onErr copyOut copyErr offOut offErr : String)
    (huh : pyStrip spec.user_host_text ≠ "") (hkf : pyStrip spec.keyfile_text ≠ "")
    (hW : env.whichSshpass = some 0)
    (hOn : env.clusterctrl (["on", spec.node_label]) = some (0, onOut, onErr))
    (hp0 : probeOk (env.probe 0) = false) (hp1 : probeOk (env.probe 1) = false)
    (hp2 : probeOk (env.probe 2) = true)
    (hCopy : env.sshCopyId = some (0, copyOut, copyErr))
    (hOff : env.clusterctrl (["off", spec.node_label]) = some (0, offOut, offErr)) :
    (distributeKey spec env).result = Except.ok (Outcome.succeeded ("SSH key copied to " ++
      pyStrip spec.user_host_text ++ " and " ++ pyUpper spec.node_label ++ " powered OFF.")) ∧
    (distributeKey spec env).trace = [Event.whichCall, Event.cluster (["on", spec.node_label]),
      Event.probeAttempt (probeCmdOf spec), Event.probeAttempt (probeCmdOf spec),
      Event.probeAttempt (probeCmdOf spec), Event.sshCopy (copyCmdOf spec),
      Event.cluster (["off", spec.node_label])] := by
  have hcond : ¬ (pyStrip spec.user_host_text = "" ∨ pyStrip spec.keyfile_text = "") := by
    intro hc
    rcases hc with hc | hc
    · exact huh hc
    · exact hkf hc
  have h1 : waitReachable env.probe 0 0 = waitReachable env.probe 5 1 := by
    simpa using waitReachable_step env.probe 0 0 (by omega) hp0
  have h2 : waitReachable env.probe 5 1 = waitReachable env.probe 10 2 := by
    simpa using waitReachable_step env.probe 5 1 (by omega) hp1
  have h3 : waitReachable env.probe 10 2 = (10, 3, true) := by
    simpa using waitReachable_exit_hit env.probe 10 2 (by omega) hp2
  have hw : waitReachable env.probe 0 0 = (10, 3, true) := by rw [h1, h2, h3]
  have hds : distributeKey spec env = ⟨Except.ok (Outcome.succeeded ("SSH key copied to " ++
      pyStrip spec.user_host_text ++ " and " ++ pyUpper spec.node_label ++ " powered OFF.")),
      [Event.whichCall, Event.cluster (["on", spec.node_label]),
        Event.probeAttempt (probeCmdOf spec), Event.probeAttempt (probeCmdOf spec),
        Event.probeAttempt (probeCmdOf spec), Event.sshCopy (copyCmdOf spec),
        Event.cluster (["off", spec.node_label])], true⟩ := by
    simp only [distributeKey, hW, run_clusterctrl_command, hOn, hCopy, hOff, hw]
    rw [if_neg hcond]
    norm_num [List.replicate]
  exact ⟨by rw [hds], by rw [hds]⟩

/-- Claim C1, witness: the amended theorem applied to a concrete spec and an
environment where all stages succeed and the probe succeeds on the third
attempt. -/
theorem claim1_success_sequence_witness :
    (distributeKey specP1 envC1ok).result = Except.ok (Outcome.succeeded
      ("SSH key copied to pi@p1.local and P1 powered OFF.")) ∧
    (distributeKey specP1 envC1ok).trace = [Event.whichCall, Event.cluster (["on", "p1"]),
      Event.probeAttempt (probeCmdOf specP1), Event.probeAttempt (probeCmdOf specP1),
      Event.probeAttempt (probeCmdOf specP1), Event.sshCopy (copyCmdOf specP1),
      Event.cluster (["off", "p1"])] :=
  claim1_success_sequence specP1 envC1ok "" "" "" "" "" "" (by decide) (by decide) rfl rfl
    (by decide) (by decide) (by decide) rfl rfl

/-- Claim C2: for every connection spec with non-empty fields, with the copy
helper present and the power-on command exiting zero, if the reachability
probe fails on every attempt then distributeKey makes exactly 24 probe
attempts (120 second budget at a 5 second interval), returns Timeout with
elapsed 120 and the left-powered-ON message, and never produces a
key-install call or a power-off call, leaving the node powered on. -/
theorem claim2_timeout_after_24_attempts (spec : NodeConnectionSpec) (env : Env)
    (onOut onErr : String)
    (huh : pyStrip spec.user_host_text ≠ "") (hkf : pyStrip spec.keyfile_text ≠ "")
    (hW : env.whichSshpass = some 0)
    (hOn : env.clusterctrl (["on", spec.node_label]) = some (0, onOut, onErr))
    (hprobe : ∀ k, probeOk (env.probe k) = false) :
    (distributeKey spec env).result = Except.ok (Outcome.timeout 120
      (pyStrip spec.user_host_text ++ " did not respond within 120 seconds.\n" ++
        pyUpper spec.node_label ++ " remains powered ON for manual setup.")) ∧
    (distributeKey spec env).trace = [Event.whichCall, Event.cluster (["on", spec.node_label])] ++
      List.replicate 24 (Event.probeAttempt (probeCmdOf spec)) ∧
    (Event.sshCopy (copyCmdOf spec)) ∉ (distributeKey spec env).trace ∧
    (Event.cluster (["off", spec.node_label])) ∉ (distributeKey spec env).trace := by
  have hcond : ¬ (pyStrip spec.user_host_text = "" ∨ pyStrip spec.keyfile_text = "") := by
    intro hc
    rcases hc with hc | hc
    · exact huh hc
    · exact hkf hc
  have hw : waitReachable env.probe 0 0 = (120, 24, false) := by
    simpa using waitReachable_allFail env.probe hprobe 24 0 0 (by omega)
  have hds : distributeKey spec env = ⟨Except.ok (Outcome.timeout 120
      (pyStrip spec.user_host_text ++ " did not respond within 120 seconds.\n" ++
        pyUpper spec.node_label ++ " remains powered ON for manual setup.")),
      [Event.whichCall, Event.cluster (["on", spec.node_label])] ++
        List.replicate 24 (Event.probeAttempt (probeCmdOf spec)), false⟩ := by
    simp only [distributeKey, hW, run_clusterctrl_command, hOn, hw]
    rw [if_neg hcond]
    norm_num
  have hs : ("off" : String) ≠ "on" := by decide
  refine ⟨by rw [hds], by rw [hds], ?_, ?_⟩ <;> rw [hds] <;>
    simp [List.mem_append, List.mem_replicate, List.mem_cons, hs]

/-- Claim C2, witness: the theorem applied to a concrete spec and an
environment whose probe always fails. -/
theorem claim2_timeout_after_24_attempts_witness :
    (distributeKey specP1 envC2).result = Except.ok (Outcome.timeout 120
      ("pi@p1.local did not respond within 120 seconds.\nP1 remains powered ON for manual setup.")) :=
  (claim2_timeout_after_24_attempts specP1 envC2 "" "" (by decide) (by decide) rfl rfl
    (fun k => rfl)).1

/-- Claim C3: for every connection spec with non-empty user@host and keyfile,
if the which lookup for sshpass exits nonzero then distributeKey returns
MissingPrerequisite and the only external call in the trace is the which
lookup itself: in particular the gateway on command is never invoked. -/
theorem claim3_missing_sshpass_no_power_on (spec : NodeConnectionSpec) (env : Env) (rcW : Int)
    (huh : pyStrip spec.user_host_text ≠ "") (hkf : pyStrip spec.keyfile_text ≠ "")
    (hW : env.whichSshpass = some rcW) (hrc : rcW ≠ 0) :
    (distributeKey spec env).result = Except.ok (Outcome.missingPrereq sshpassMissingMsg) ∧
    (distributeKey spec env).trace = [Event.whichCall] := by
  have hcond : ¬ (pyStrip spec.user_host_text = "" ∨ pyStrip spec.keyfile_text = "") := by
    intro hc
    rcases hc with hc | hc
    · exact huh hc
    · exact hkf hc
  simp only [distributeKey, hW]
  rw [if_neg hcond]
  simp only [hrc, if_true, ne_eq]
  constructor <;> rfl

/-- Claim C3, witness: the theorem applied to a concrete spec and an
environment where the which lookup exits 1. -/
theorem claim3_missing_sshpass_no_power_on_witness :
    (distributeKey specP1 envC3).result = Except.ok (Outcome.missingPrereq sshpassMissingMsg) ∧
    (distributeKey specP1 envC3).trace = [Event.whichCall] :=
  claim3_missing_sshpass_no_power_on specP1 envC3 1 (by decide) (by decide) rfl (by decide)

/-- Claim C4: a probe attempt counts as success if and only if the process
exits zero and its stdout contains the literal marker token; and whenever
an attempt inside the budget is not a success (in particular a nonzero
exit with the token present) the loop retries after the poll interval. -/
theorem claim4_probe_success_condition :
    (∀ (rc : Int) (out : String), probeOk (some (rc, out)) = true ↔
      (rc = 0 ∧ containsSubstr out upMarker = true)) ∧
    (∀ (probe : Nat → Option (Int × String)) (e a : Nat), e < 120 →
      probeOk (probe a) = false → waitReachable probe e a = waitReachable probe (e + 5) (a + 1)) := by
  constructor
  · intro rc out
    simp [probeOk, Bool.and_eq_true, beq_iff_eq]
  · intro probe e a he hp
    exact waitReachable_step probe e a he hp

/-- Claim C4, witness: the success condition evaluated at a nonzero exit with
the token present, and the resulting retry of the loop. -/
theorem claim4_probe_success_condition_witness :
    (probeOk (some ((1 : Int), "up")) = true ↔ ((1 : Int) = 0 ∧ containsSubstr ("up") upMarker = true)) ∧
    waitReachable probeC4 0 0 = waitReachable probeC4 (0 + 5) (0 + 1) :=
  ⟨claim4_probe_success_condition.1 1 ("up"), claim4_probe_success_condition.2 probeC4 0 0
    (by omega) (by decide)⟩

/-- Claim C5, counterexample: a run ending in KeyInstallFailed whose reported
message is only the copy-failure text and does not mention the node being
left powered ON, so the claim that all three of Timeout, KeyInstallFailed
and PowerOffFailed report the node as left ON is false. -/
theorem claim5_report_left_on_cex :
    (distributeKey specP1 envC5).result = Except.ok (Outcome.keyInstallFailed
      ("Failed to copy SSH key to pi@p1.local:\nPermission denied")) ∧
    containsSubstr ("Failed to copy SSH key to pi@p1.local:\nPermission denied") onMarker = false :=
  ⟨rfl, by decide⟩

/-- Claim C5 (amended): on Timeout and on PowerOffFailed the reported message
states the node is left powered ON; on KeyInstallFailed the node really is
left powered on (the trace contains no power-off call) but the reported
message does not state the power state. -/
theorem claim5_report_left_on (spec : NodeConnectionSpec) (env : Env) :
    (∀ e m, (distributeKey spec env).result = Except.ok (Outcome.timeout e m) →
      containsSubstr m onMarker = true) ∧
    (∀ m, (distributeKey spec env).result = Except.ok (Outcome.powerOffFailed m) →
      containsSubstr m onMarker = true) ∧
    (∀ m, (distributeKey spec env).result = Except.ok (Outcome.keyInstallFailed m) →
      Event.cluster (["off", spec.node_label]) ∉ (distributeKey spec env).trace) := by
  refine ⟨?_, ?_, ?_⟩
  · intro e m h
    cases hWe : env.whichSshpass <;> cases hCe : env.sshCopyId <;>
      simp only [distributeKey, hWe, hCe] at h <;>
      split_ifs at h <;>
      first
        | (simp only [Except.ok.injEq, Outcome.timeout.injEq] at h
           obtain ⟨he, hm⟩ := h
           subst hm
           exact containsSubstr_append_right _ _ onMarker (by decide))
        | simp_all
  · intro m h
    cases hWe : env.whichSshpass <;> cases hCe : env.sshCopyId <;>
      simp only [distributeKey, hWe, hCe] at h <;>
      split_ifs at h <;>
      first
        | (simp only [Except.ok.injEq, Outcome.powerOffFailed.injEq] at h
           subst h
           exact containsSubstr_append_left _ _ onMarker
             (containsSubstr_append_right _ _ onMarker (by decide)))
        | simp_all
  · intro m h
    cases hWe : env.whichSshpass <;> cases hCe : env.sshCopyId <;>
      simp only [distributeKey, hWe, hCe] at h ⊢ <;>
      split_ifs at h ⊢ <;> simp_all

/-- Claim C5, witness: the PowerOffFailed part of the amended theorem applied
to a concrete run whose power-off fails; the message does contain ON. -/
theorem claim5_report_left_on_witness :
    containsSubstr ("P1 was ON and key copied, but failed to power OFF: off boom") onMarker = true :=
  (claim5_report_left_on specP1 envC5w).2.1
    ("P1 was ON and key copied, but failed to power OFF: off boom") rfl

/-- Claim C6, counterexample: with the which executable unavailable the
workflow propagates a FileNotFoundError instead of returning a typed
outcome, so the claim that no exception ever crosses the workflow
boundary is false. -/
theorem claim6_no_exception_cex :
    (distributeKey specP1 envC6).result = Except.error fileNotFound ∧
    exceptIsOk (distributeKey specP1 envC6).result = false :=
  ⟨rfl, rfl⟩

/-- Claim C6 (amended): provided the which executable and the key-copy helper
can both be spawned, every behaviour of the external processes (including
an unlocatable clusterctrl executable and probe errors) yields a typed
outcome returned to the caller, with no exception crossing the workflow
boundary. -/
theorem claim6_typed_outcomes (spec : NodeConnectionSpec) (env : Env)
    (hW : env.whichSshpass.isSome = true) (hC : env.sshCopyId.isSome = true) :
    exceptIsOk (distributeKey spec env).result = true := by
  cases hWe : env.whichSshpass with
  | none => rw [hWe] at hW; simp at hW
  | some rc =>
    cases hCe : env.sshCopyId with
    | none => rw [hCe] at hC; simp at hC
    | some c =>
      simp only [distributeKey, hWe, hCe]
      split_ifs <;> simp [exceptIsOk]

/-- Claim C6, witness: the amended theorem applied to an environment where
which and the copy helper can be spawned but clusterctrl cannot. -/
theorem claim6_typed_outcomes_witness :
    exceptIsOk (distributeKey specP1 envC6w).result = true :=
  claim6_typed_outcomes specP1 envC6w rfl rfl

set_option maxHeartbeats 1000000 in
/-- Claim C7: whenever a run returns Succeeded the password field is cleared;
the settings-save operation stores only the stripped user@host and
keyfile, independently of the password field; and the entire result
(outcome, messages, cleared flag) of a run is invariant under changing
the password, so no password ever reaches an outcome or error message. -/
theorem claim7_password_hygiene (spec : NodeConnectionSpec) (env : Env) (pw : String)
    (f : SshFields) :
    (∀ m, (distributeKey spec env).result = Except.ok (Outcome.succeeded m) →
      (distributeKey spec env).pwCleared = true) ∧
    savedSshEntry { f with pw_text := pw } = savedSshEntry f ∧
    (distributeKey { spec with password_text := pw } env).result = (distributeKey spec env).result ∧
    (distributeKey { spec with password_text := pw } env).pwCleared = (distributeKey spec env).pwCleared := by
  refine ⟨?_, rfl, ?_, ?_⟩
  · intro m h
    cases hWe : env.whichSshpass <;> cases hCe : env.sshCopyId <;>
      simp only [distributeKey, hWe, hCe] at h ⊢ <;>
      split_ifs at h ⊢ <;> first | rfl | simp at h
  · cases hWe : env.whichSshpass <;> cases hCe : env.sshCopyId <;>
      simp only [distributeKey, hWe, hCe] <;>
      split_ifs <;> rfl
  · cases hWe : env.whichSshpass <;> cases hCe : env.sshCopyId <;>
      simp only [distributeKey, hWe, hCe] <;>
      split_ifs <;> rfl

/-- Claim C7, witness: the success-path clearing applied to a concrete fully
successful run. -/
theorem claim7_password_hygiene_witness :
    (distributeKey specP1 envC7).pwCleared = true :=
  (claim7_password_hygiene specP1 envC7 ("other") ⟨"u", "k", "p"⟩).1
    ("SSH key copied to pi@p1.local and P1 powered OFF.") rfl

/-- Claim C8: on the sample stdout the status parser yields exactly the three
entries of the specification; a line is split at its first colon only;
later duplicate keys overwrite earlier ones (both on a concrete input and
in general for the dictionary insertion); lines without a colon are
skipped. -/
theorem claim8_status_parsing :
    parse_clusterctrl_status envC8 = (some [("p1", "1"), ("hub", "0"), ("fan", "1")], none) ∧
    parseStatusLines ("a:b:c") = [("a", "b:c")] ∧
    parseStatusLines ("k: 1\nk:2") = [("k", "2")] ∧
    parseStatusLines ("no colon here\n\n") = [] ∧
    (∀ st k v, lookupFirst (dictInsert st k v) k = some v) :=
  ⟨by decide, by decide, by decide, by decide, lookupFirst_dictInsert⟩

/-- Claim C9, counterexample: exactly four of the five board variants lack
write-protect support, not two as claimed. -/
theorem claim9_board_catalog_cex :
    (ALL_BOARDS.countP fun b => !b.supports_wp) = 4 ∧
    ¬ (ALL_BOARDS.countP fun b => !b.supports_wp) = 2 := by
  decide

/-- Claim C9 (amended): the static catalog has exactly five variants with
node counts 1, 3, 4, 4, 6, of which exactly two lack hub/LED support,
exactly one lacks alert support, and exactly four lack write-protect
support. -/
theorem claim9_board_catalog :
    ALL_BOARDS.length = 5 ∧
    (ALL_BOARDS.map fun b => b.supports_nodes).Perm [1, 3, 4, 4, 6] ∧
    (ALL_BOARDS.countP fun b => !b.supports_hub_led) = 2 ∧
    (ALL_BOARDS.countP fun b => !b.supports_alert) = 1 ∧
    (ALL_BOARDS.countP fun b => !b.supports_wp) = 4 := by
  decide

/-- Claim C10: for every connection spec whose user@host or keyfile field is
empty after stripping, distributeKey returns the missing-information
warning immediately, with an empty trace (no which lookup, no power
command, no probe, no install call) and without touching the password
field. -/
theorem claim10_missing_fields_no_side_effects (spec : NodeConnectionSpec) (env : Env)
    (h : pyStrip spec.user_host_text = "" ∨ pyStrip spec.keyfile_text = "") :
    (distributeKey spec env).result = Except.ok (Outcome.missingInfo
      ("Please specify User@Host and Keyfile for " ++ pyUpper spec.node_label ++ ".")) ∧
    (distributeKey spec env).trace = [] ∧ (distributeKey spec env).pwCleared = false := by
  simp only [distributeKey]
  rw [if_pos h]
  exact ⟨rfl, rfl, rfl⟩

/-- Claim C10, witness: the theorem applied to a spec whose user@host field
is whitespace only. -/
theorem claim10_missing_fields_no_side_effects_witness :
    (distributeKey specBlank envC2).result = Except.ok (Outcome.missingInfo
      ("Please specify User@Host and Keyfile for P2.")) ∧
    (distributeKey specBlank envC2).trace = [] ∧ (distributeKey specBlank envC2).pwCleared = false :=
  claim10_missing_fields_no_side_effects specBlank envC2 (Or.inl (by decide))

end ClusterCtrlGui
